import Mathlib

/-!
Formal model of the payment control plane of the subscription-platform
repository: decline classification and the retry queue (mit-scheduler),
the BPAS rule engine, the payment orchestrator charge/refund handlers,
and the relational constraints of the migrations.

Conventions of the embedding:
* Go `float64` money amounts are modelled as `ℚ`.
* Go `time.Time` / `time.Duration` values are modelled as `Nat` seconds.
* Database and network calls are modelled by explicit state passing and
  by outcome oracles supplied as function arguments.
* Go `string` zero values ("") are kept as empty strings, `*T` as `Option`.
-/

/-! ### Decline classification (retry.go: ClassifyError, RetryPolicy) -/

/-- DeclineType: the type of payment decline (soft = retry, hard = do not). -/
inductive DeclineType where
  | soft
  | hard
deriving DecidableEq, Repr

/-- The hard-decline codes of ClassifyError (its `hardDeclines` map). -/
def hardDeclines : List String :=
  ["card_declined", "invalid_card", "expired_card", "card_not_supported",
   "invalid_account", "currency_not_supported", "fraud_detected", "stolen_card",
   "lost_card", "pickup_card", "invalid_amount", "do_not_honor",
   "account_closed", "insufficient_permission"]

/-- The soft-decline codes of ClassifyError (its `softDeclines` map). -/
def softDeclines : List String :=
  ["insufficient_funds", "processing_error", "try_again_later",
   "temporary_failure", "network_error", "timeout", "rate_limit_exceeded",
   "service_unavailable", "processor_unavailable", "CHARGE_ERROR",
   "ORCHESTRATOR_ERROR"]

/-- ClassifyError: hard declines from the hard map, soft declines from the
soft map, unknown codes default to soft. -/
def ClassifyError (errorCode : String) : DeclineType :=
  if hardDeclines.contains errorCode then DeclineType.hard
  else if softDeclines.contains errorCode then DeclineType.soft
  else DeclineType.soft

/-- RetryPolicy: max attempts plus the back-off intervals (seconds). -/
structure RetryPolicy where
  maxAttempts : Nat
  retryIntervals : List Nat
deriving DecidableEq, Repr

/-- DefaultRetryPolicy: 3 attempts at 1 hour, 24 hours, 72 hours. -/
def DefaultRetryPolicy : RetryPolicy :=
  { maxAttempts := 3, retryIntervals := [3600, 86400, 259200] }

/-- GetRetryInterval: interval for a 1-indexed attempt number; attempt 0 maps
to the first interval, attempts past the end map to the last interval. -/
def GetRetryInterval (p : RetryPolicy) (attempt : Nat) : Nat :=
  if attempt = 0 then p.retryIntervals.headD 0
  else if attempt > p.retryIntervals.length then p.retryIntervals.getLastD 0
  else p.retryIntervals.getD (attempt - 1) 0

/-- CalculateNextRetry: now + the interval for the attempt. -/
def CalculateNextRetry (p : RetryPolicy) (attempt : Nat) (now : Nat) : Nat :=
  now + GetRetryInterval p attempt

/-! ### Retry queue rows (scheduler database.go) -/

/-- RetryEntry: one row of the retry_queue table. -/
structure RetryEntry where
  id : String
  subscriptionId : String
  attempt : Nat
  maxAttempts : Nat
  status : String
  lastErrorCode : String
  lastErrorMessage : String
  declineType : String
  nextRetryAt : Nat
  lastAttemptAt : Option Nat
  transactionId : String
  processorUsed : String
  createdAt : Nat
  updatedAt : Nat
  resolvedAt : Option Nat
deriving DecidableEq, Repr

def RetryStatusPending : String := "pending"
def RetryStatusProcessing : String := "processing"
def RetryStatusSucceeded : String := "succeeded"
def RetryStatusFailed : String := "failed"
def RetryStatusCanceled : String := "canceled"
def RetryStatusExhausted : String := "exhausted"

/-- ChargeResult: the outcome the scheduler records for one charge. -/
structure ChargeResult where
  success : Bool
  transactionId : String
  processorUsed : String
  errorCode : String
  errorMessage : String
deriving DecidableEq, Repr

/-- The entry value built by CreateRetryEntry: attempt 1, status pending,
next retry at CalculateNextRetry(1). -/
def newRetryEntry (id subscriptionId errorCode errorMessage : String)
    (declineType : DeclineType) (policy : RetryPolicy) (now : Nat) : RetryEntry :=
  { id := id
    subscriptionId := subscriptionId
    attempt := 1
    maxAttempts := policy.maxAttempts
    status := RetryStatusPending
    lastErrorCode := errorCode
    lastErrorMessage := errorMessage
    declineType := if declineType = DeclineType.hard then "hard" else "soft"
    nextRetryAt := CalculateNextRetry policy 1 now
    lastAttemptAt := none
    transactionId := ""
    processorUsed := ""
    createdAt := now
    updatedAt := now
    resolvedAt := none }

/-- UpdateRetryAfterAttempt applied to the addressed row: success resolves the
entry as succeeded; otherwise the attempt is advanced and the row becomes
exhausted when the new attempt exceeds max_attempts, failed on a hard decline,
or pending with a new next_retry_at on a soft decline. -/
def UpdateRetryAfterAttempt (entry : RetryEntry) (success : Bool)
    (result : ChargeResult) (policy : RetryPolicy) (now : Nat) : RetryEntry :=
  if success then
    { entry with
        status := RetryStatusSucceeded
        lastAttemptAt := some now
        transactionId := result.transactionId
        processorUsed := result.processorUsed
        updatedAt := now
        resolvedAt := some now }
  else
    let newAttempt := entry.attempt + 1
    if newAttempt > entry.maxAttempts then
      { entry with
          status := RetryStatusExhausted
          attempt := newAttempt
          lastAttemptAt := some now
          lastErrorCode := result.errorCode
          lastErrorMessage := result.errorMessage
          updatedAt := now
          resolvedAt := some now }
    else
      let nextRetry := CalculateNextRetry policy newAttempt now
      let declineType := ClassifyError result.errorCode
      if declineType = DeclineType.hard then
        { entry with
            status := RetryStatusFailed
            attempt := newAttempt
            lastAttemptAt := some now
            lastErrorCode := result.errorCode
            lastErrorMessage := result.errorMessage
            declineType := "hard"
            updatedAt := now
            resolvedAt := some now }
      else
        { entry with
            status := RetryStatusPending
            attempt := newAttempt
            lastAttemptAt := some now
            lastErrorCode := result.errorCode
            lastErrorMessage := result.errorMessage
            declineType := "soft"
            nextRetryAt := nextRetry
            updatedAt := now }

/-! ### The retry_queue schema (EnsureRetryTableExists) and the upsert -/

/-- One index of the relational schema: uniqueness flag, column list and the
partial-index predicate, recorded as (column, required value). -/
structure IndexSpec where
  name : String
  isUnique : Bool
  columns : List String
  predicate : Option (String × String)
deriving DecidableEq, Repr

/-- The indexes EnsureRetryTableExists creates on retry_queue: the primary
key plus three plain (non-unique) indexes. -/
def retryQueueIndexes : List IndexSpec :=
  [ { name := "retry_queue_pkey", isUnique := true,
      columns := ["id"], predicate := none },
    { name := "idx_retry_queue_status", isUnique := false,
      columns := ["status"], predicate := none },
    { name := "idx_retry_queue_next_retry", isUnique := false,
      columns := ["next_retry_at"], predicate := some ("status", "pending") },
    { name := "idx_retry_queue_subscription", isUnique := false,
      columns := ["subscription_id"], predicate := none } ]

/-- Whether an index can arbitrate the clause
`ON CONFLICT (subscription_id) WHERE status = 'pending'` of CreateRetryEntry:
PostgreSQL requires a unique index on exactly those columns whose partial
predicate matches the inference predicate. -/
def matchesRetryArbiter (idx : IndexSpec) : Bool :=
  idx.isUnique && idx.columns = ["subscription_id"]
    && idx.predicate = some ("status", "pending")

/-- GetActiveRetryForSubscription: the pending entry for the subscription
with the latest created_at, if any (ORDER BY created_at DESC LIMIT 1). -/
def GetActiveRetryForSubscription (table : List RetryEntry)
    (subscriptionId : String) : Option RetryEntry :=
  (table.filter (fun e =>
      e.subscriptionId = subscriptionId ∧ e.status = RetryStatusPending)).foldl
    (fun acc e =>
      match acc with
      | none => some e
      | some a => if e.createdAt > a.createdAt then some e else some a) none

/-- CreateRetryEntry against the schema of EnsureRetryTableExists: the INSERT
carries `ON CONFLICT (subscription_id) WHERE status = 'pending' DO UPDATE`,
which PostgreSQL rejects unless some index matches the arbiter; on the error
path the code falls back to the existing active entry when one exists and
otherwise reports failure. -/
def CreateRetryEntry (table : List RetryEntry) (entry : RetryEntry) :
    Except String (RetryEntry × List RetryEntry) :=
  if retryQueueIndexes.any matchesRetryArbiter then
    match table.find? (fun e =>
        e.subscriptionId = entry.subscriptionId
          ∧ e.status = RetryStatusPending) with
    | some existing => Except.ok (existing, table)
    | none => Except.ok (entry, table ++ [entry])
  else
    match GetActiveRetryForSubscription table entry.subscriptionId with
    | some existing => Except.ok (existing, table)
    | none => Except.error ("failed to create retry entry")

/-! ### BPAS rule engine (bpas main.go) -/

/-- The typed payloads found in a rule condition_value map; an absent field
models both a missing key and a failed Go type assertion. -/
structure ConditionValue where
  amount : Option ℚ
  operator : Option String
  currencies : Option (List String)
  marketplaces : Option (List String)
  tiers : Option (List String)
  clientIds : Option (List String)
deriving DecidableEq, Repr

/-- The empty condition_value map. -/
def ConditionValue.empty : ConditionValue :=
  { amount := none, operator := none, currencies := none,
    marketplaces := none, tiers := none, clientIds := none }

/-- RoutingRule of the BPAS config. -/
structure RoutingRule where
  name : String
  priority : Int
  conditionType : String
  conditionValue : ConditionValue
  targetProcessor : String
  percentage : Nat
  isActive : Bool
deriving DecidableEq, Repr

/-- EvaluationRequest: the /bpas/evaluate body. -/
structure EvaluationRequest where
  amount : ℚ
  currency : String
  marketplace : String
  userTier : String
  userId : String
  clientId : String
deriving DecidableEq, Repr

/-- matchesAmountThreshold: compare the request amount with the rule amount
under the rule operator (operator defaults to greater_than when absent). -/
def matchesAmountThreshold (req : EvaluationRequest) (rule : RoutingRule) : Bool :=
  match rule.conditionValue.amount with
  | none => false
  | some amount =>
    let operator := rule.conditionValue.operator.getD "greater_than"
    if operator = "greater_than" then req.amount > amount
    else if operator = "less_than" then req.amount < amount
    else if operator = "equals" then req.amount = amount
    else if operator = "greater_equal" then req.amount ≥ amount
    else if operator = "less_equal" then req.amount ≤ amount
    else false

/-- matchesCurrency: request currency listed in the rule currencies. -/
def matchesCurrency (req : EvaluationRequest) (rule : RoutingRule) : Bool :=
  match rule.conditionValue.currencies with
  | none => false
  | some currencies => currencies.contains req.currency

/-- matchesMarketplace: request marketplace listed in the rule marketplaces. -/
def matchesMarketplace (req : EvaluationRequest) (rule : RoutingRule) : Bool :=
  match rule.conditionValue.marketplaces with
  | none => false
  | some marketplaces => marketplaces.contains req.marketplace

/-- matchesUserTier: request user tier listed in the rule tiers. -/
def matchesUserTier (req : EvaluationRequest) (rule : RoutingRule) : Bool :=
  match rule.conditionValue.tiers with
  | none => false
  | some tiers => tiers.contains req.userTier

/-- matchesClientID: request client id listed in the rule client_ids. -/
def matchesClientID (req : EvaluationRequest) (rule : RoutingRule) : Bool :=
  match rule.conditionValue.clientIds with
  | none => false
  | some clientIds => clientIds.contains req.clientId

/-- matchesRule: dispatch on condition_type; percentage always matches here
(the draw is applied by the evaluator); unknown types never match. -/
def matchesRule (req : EvaluationRequest) (rule : RoutingRule) : Bool :=
  if rule.conditionType = "amount_threshold" then matchesAmountThreshold req rule
  else if rule.conditionType = "currency" then matchesCurrency req rule
  else if rule.conditionType = "marketplace" then matchesMarketplace req rule
  else if rule.conditionType = "user_tier" then matchesUserTier req rule
  else if rule.conditionType = "percentage" then true
  else if rule.conditionType = "client_id" then matchesClientID req rule
  else false

/-- calculateConfidence: fixed confidence per condition_type. -/
def calculateConfidence (rule : RoutingRule) (_req : EvaluationRequest) : ℚ :=
  if rule.conditionType = "amount_threshold" then 9/10
  else if rule.conditionType = "currency" then 8/10
  else if rule.conditionType = "marketplace" then 7/10
  else if rule.conditionType = "percentage" then 6/10
  else 5/10

/-- evaluateRules over the (priority-sorted) rule list. `draws` is the stream
of `rand.Intn(100)` values and `k` counts the draws consumed so far: an
active matching percentage rule is taken exactly when its draw is below the
rule percentage, otherwise evaluation continues with the next rule; the
first active matching non-percentage rule is taken immediately; with no rule
taken the fallback is (processor_a, no rule, confidence 0.5). -/
def evaluateRules (req : EvaluationRequest) (draws : Nat → Nat) :
    List RoutingRule → Nat → String × Option RoutingRule × ℚ
  | [], _ => ("processor_a", none, 1/2)
  | rule :: rest, k =>
    if rule.isActive = false then evaluateRules req draws rest k
    else if matchesRule req rule then
      if rule.conditionType = "percentage" then
        if draws k < rule.percentage then (rule.targetProcessor, some rule, 1)
        else evaluateRules req draws rest (k + 1)
      else (rule.targetProcessor, some rule, calculateConfidence rule req)
    else evaluateRules req draws rest k

/-- The sort applied by loadConfig and updateRule:
rules ascending by priority (lower number = higher priority). -/
def sortRulesByPriority (rules : List RoutingRule) : List RoutingRule :=
  rules.mergeSort (fun a b => a.priority ≤ b.priority)

/-! ### Payment orchestrator: processor client and charge handler -/

/-- ProcessorChargeRequest: the body sent to a processor /charge. -/
structure ProcessorChargeRequest where
  amount : ℚ
  currency : String
  token : String
  idempotencyKey : String
deriving DecidableEq, Repr

/-- ProcessorChargeResponse: the decoded body of a processor /charge reply. -/
structure ProcessorChargeResponse where
  success : Bool
  transactionId : String
  authCode : String
  errorCode : String
  errorMessage : String
deriving DecidableEq, Repr

/-- What one HTTP exchange with a processor produced: a transport failure
(network error or timeout) or a response with its status code and body. -/
inductive ChargeOutcome where
  | transportError
  | httpResponse (status : Nat) (body : ProcessorChargeResponse)
deriving DecidableEq, Repr

/-- The errors ProcessorClient.Charge surfaces to its caller. -/
inductive ChargeCallError where
  | requestFailed
  | badStatus (status : Nat)
deriving DecidableEq, Repr

/-- ProcessorClient.Charge classification of the HTTP outcome: a transport
failure is an error (and marks the client unhealthy); a status other than
200 or 402 is an error (and marks the client unhealthy); a 200 or 402
response is returned decoded. -/
def processorChargeResult : ChargeOutcome → Except ChargeCallError ProcessorChargeResponse
  | ChargeOutcome.transportError => Except.error ChargeCallError.requestFailed
  | ChargeOutcome.httpResponse status body =>
    if status ≠ 200 ∧ status ≠ 402 then Except.error (ChargeCallError.badStatus status)
    else Except.ok body

/-- PaymentMethod row as loaded by GetPaymentMethod. -/
structure PaymentMethod where
  id : String
  userId : String
  networkToken : String
  processorAToken : String
  processorBToken : String
  tokenType : String
  lastFour : String
deriving DecidableEq, Repr

/-- selectToken: prefer the network token; else the processor-specific token
of the chosen processor; else any available processor token; else empty. -/
def selectToken (pm : PaymentMethod) (processor : String) : String :=
  if pm.networkToken ≠ "" then pm.networkToken
  else if processor = "processor_a" ∧ pm.processorAToken ≠ "" then pm.processorAToken
  else if processor = "processor_b" ∧ pm.processorBToken ≠ "" then pm.processorBToken
  else if pm.processorAToken ≠ "" then pm.processorAToken
  else if pm.processorBToken ≠ "" then pm.processorBToken
  else ""

/-- mapErrorToUserMessage: fixed map from error code to user-facing text;
any unmapped code (including the empty one) yields the default text. -/
def mapErrorToUserMessage (errorCode : String) : String :=
  if errorCode = "CARD_DECLINED" then
    "Your card was declined. Please try a different payment method."
  else if errorCode = "INSUFFICIENT_FUNDS" then
    "Insufficient funds. Please try again later or use a different card."
  else if errorCode = "CARD_EXPIRED" then
    "Your card has expired. Please update your payment method."
  else if errorCode = "NETWORK_ERROR" then
    "Network error. Please try again in a few moments."
  else if errorCode = "PROCESSOR_UNAVAILABLE" then
    "Payment system temporarily unavailable. Please try again later."
  else if errorCode = "FRAUD_SUSPECTED" then
    "Payment declined for security reasons. Please contact your bank."
  else "Payment could not be processed. Please try again."

/-- getStatus: transaction status text from the success flag. -/
def getStatus (success : Bool) : String :=
  if success then "success" else "failed"

/-- ChargeRequest: the /orchestrator/charge body (idempotency key already
server-generated when the caller omitted it). -/
structure ChargeRequest where
  subscriptionId : String
  paymentMethodId : String
  amount : ℚ
  currency : String
  idempotencyKey : String
deriving DecidableEq, Repr

/-- ChargeResponse: the /orchestrator/charge reply body. -/
structure ChargeResponse where
  success : Bool
  transactionId : String
  processorUsed : String
  amount : ℚ
  currency : String
  userMessage : String
  errorCode : String
deriving DecidableEq, Repr

/-- Transaction row of the transactions table. -/
structure Transaction where
  id : String
  subscriptionId : String
  paymentMethodId : String
  processorUsed : String
  amount : ℚ
  currency : String
  status : String
  transactionType : String
  idempotencyKey : String
  processorTransactionId : String
  originalTransactionId : Option String
  errorCode : String
  userErrorMessage : String
deriving DecidableEq, Repr

/-- RoutingDecision returned by the BPAS client. -/
structure RoutingDecision where
  primaryProcessor : String
  secondaryProcessor : String
  confidence : ℚ
deriving DecidableEq, Repr

/-- The orchestrator environment for one request: the two processor health
bits, each processor charge endpoint as an outcome oracle, the BPAS answer
(none models a failed or empty routing call) and the payment-method load. -/
structure OrchestratorEnv where
  healthyA : Bool
  healthyB : Bool
  chargeA : ProcessorChargeRequest → ChargeOutcome
  chargeB : ProcessorChargeRequest → ChargeOutcome
  routing : Option RoutingDecision
  paymentMethod : Option PaymentMethod

/-- processCharge routing defaults: a failed or empty BPAS answer becomes
(processor_a, processor_b, 0.5); an empty secondary becomes processor_b. -/
def resolveRouting (r : Option RoutingDecision) : RoutingDecision :=
  let d : RoutingDecision := match r with
    | none =>
      { primaryProcessor := "processor_a", secondaryProcessor := "processor_b",
        confidence := 1/2 }
    | some d =>
      if d.primaryProcessor = "" then
        { primaryProcessor := "processor_a", secondaryProcessor := "processor_b",
          confidence := 1/2 }
      else d
  { d with secondaryProcessor :=
      if d.secondaryProcessor = "" then "processor_b" else d.secondaryProcessor }

/-- The errors chargeWithProcessor surfaces (each makes processCharge try the
secondary): an unknown processor name, an unhealthy processor, or an error
from ProcessorClient.Charge. -/
inductive AttemptError where
  | unknownProcessor (name : String)
  | unhealthy (name : String)
  | chargeFailed (e : ChargeCallError)
deriving DecidableEq, Repr

/-- chargeWithProcessor: pick the processor client and token by name, check
the health bit, then call Charge and translate the body into a
ChargeResponse (the user message is mapped from the processor error code).
The second component records the processor request actually issued, `none`
when the attempt failed before any call. -/
def chargeWithProcessor (env : OrchestratorEnv) (processorName : String)
    (req : ChargeRequest) (pm : PaymentMethod) :
    Except AttemptError ChargeResponse × Option ProcessorChargeRequest :=
  let selected : Option ((ProcessorChargeRequest → ChargeOutcome) × Bool × String) :=
    if processorName = "processor_a" then
      some (env.chargeA, env.healthyA, selectToken pm "processor_a")
    else if processorName = "processor_b" then
      some (env.chargeB, env.healthyB, selectToken pm "processor_b")
    else none
  match selected with
  | none => (Except.error (AttemptError.unknownProcessor processorName), none)
  | some (call, healthy, token) =>
    if healthy = false then
      (Except.error (AttemptError.unhealthy processorName), none)
    else
      let processorReq : ProcessorChargeRequest :=
        { amount := req.amount, currency := req.currency, token := token,
          idempotencyKey := req.idempotencyKey }
      match processorChargeResult (call processorReq) with
      | Except.error e => (Except.error (AttemptError.chargeFailed e), some processorReq)
      | Except.ok resp =>
        (Except.ok
          { success := resp.success
            transactionId := resp.transactionId
            processorUsed := processorName
            amount := req.amount
            currency := req.currency
            userMessage := mapErrorToUserMessage resp.errorCode
            errorCode := resp.errorCode }, some processorReq)

/-! ### Orchestrator persistence: idempotency cache and transactions table -/

/-- The orchestrator store: the Redis idempotency cache and the
transactions table. -/
structure OrchState where
  cache : List (String × ChargeResponse)
  transactions : List Transaction
deriving DecidableEq, Repr

/-- Redis GET on the cache (most recent write wins). -/
def cacheGet (cache : List (String × ChargeResponse)) (key : String) :
    Option ChargeResponse :=
  (cache.find? (fun p => p.1 = key)).map (fun p => p.2)

/-- cacheIdempotencyResult: SET idempotency:(key) to the response. -/
def cacheIdempotencyResult (cache : List (String × ChargeResponse))
    (key : String) (result : ChargeResponse) : List (String × ChargeResponse) :=
  ("idempotency:" ++ key, result) :: cache

/-- The columns of the transactions table created by the migrations
(001_initial_schema.sql). The error text column is error_message;
no migration creates a user_error_message column. -/
def transactionsTableColumns : List String :=
  ["id", "subscription_id", "payment_method_id", "processor_used",
   "amount", "currency", "status", "transaction_type", "idempotency_key",
   "processor_transaction_id", "error_code", "error_message",
   "original_transaction_id", "created_at"]

/-- The column list of the CreateTransaction INSERT: transaction_type is
absent and user_error_message is named. -/
def createTransactionInsertColumns : List String :=
  ["id", "subscription_id", "payment_method_id", "processor_used",
   "amount", "currency", "status", "idempotency_key",
   "processor_transaction_id", "original_transaction_id",
   "error_code", "user_error_message", "created_at"]

/-- Whether the CreateTransaction INSERT names only columns the migrations
create; false on this schema because user_error_message does not exist,
so PostgreSQL rejects the statement with an undefined-column error. -/
def createTransactionStatementOk : Bool :=
  createTransactionInsertColumns.all (fun c => transactionsTableColumns.contains c)

/-- The column list of the transaction SELECT statements (GetTransaction
and GetTransactionByIdempotencyKey): it also names user_error_message. -/
def transactionSelectColumns : List String :=
  ["id", "subscription_id", "payment_method_id", "processor_used",
   "amount", "currency", "status", "idempotency_key",
   "processor_transaction_id", "original_transaction_id",
   "error_code", "user_error_message", "created_at"]

/-- Whether the transaction SELECT names only columns the migrations
create; false on this schema for the same undefined column. -/
def transactionSelectStatementOk : Bool :=
  transactionSelectColumns.all (fun c => transactionsTableColumns.contains c)

/-- GetTransactionByIdempotencyKey: the SELECT names user_error_message,
which the migrations never create, so against this schema the query errors
and the caller sees no row (checkIdempotency treats the error as a miss);
the find? models the lookup a correct column list would perform. -/
def GetTransactionByIdempotencyKey (table : List Transaction) (key : String) :
    Option Transaction :=
  if transactionSelectStatementOk = false then none
  else table.find? (fun t => t.idempotencyKey = key)

/-- checkIdempotency: first the cache under idempotency:(key), then the
transactions table, whose row is rebuilt into a ChargeResponse. -/
def checkIdempotency (st : OrchState) (key : String) : Option ChargeResponse :=
  match cacheGet st.cache ("idempotency:" ++ key) with
  | some response => some response
  | none =>
    match GetTransactionByIdempotencyKey st.transactions key with
    | some transaction =>
      some
        { success := transaction.status = "success"
          transactionId := transaction.id
          processorUsed := transaction.processorUsed
          amount := transaction.amount
          currency := transaction.currency
          userMessage := transaction.userErrorMessage
          errorCode := transaction.errorCode }
    | none => none

/-- The row an accepted CreateTransaction INSERT would store: the column
list omits transaction_type, so the row would carry the schema default
charge. On this schema the accepting branch is unreachable, because the
same column list names the nonexistent user_error_message column. -/
def persistedRow (t : Transaction) : Transaction :=
  { t with transactionType := "charge" }

/-- CreateTransaction against the migrations schema: the INSERT names the
user_error_message column, which no migration creates, so PostgreSQL
rejects the statement and the caller only logs the error — nothing is ever
stored. The remaining branches model what a correct column list would then
face: the check constraint chk_amount_positive rejects non-positive
amounts, `ON CONFLICT (idempotency_key) DO NOTHING` makes a duplicate key
a no-op, and an accepted row would be stored without transaction_type. -/
def CreateTransaction (table : List Transaction) (t : Transaction) :
    List Transaction :=
  if createTransactionStatementOk = false then table
  else if ¬ (0 < t.amount) then table
  else if table.any (fun x => x.idempotencyKey = t.idempotencyKey) then table
  else table ++ [persistedRow t]

/-- What the processCharge handler wrote back: 404 for a missing payment
method, a replay (the X-Idempotent-Replay header with the stored body), or
a completed attempt with its HTTP status and whether failover was taken. -/
inductive ChargeHandlerOutput where
  | paymentMethodNotFound
  | replay (resp : ChargeResponse)
  | completed (resp : ChargeResponse) (httpStatus : Nat) (failedOver : Bool)
deriving DecidableEq, Repr

/-- The primary-then-secondary block of processCharge: the primary attempt;
on any primary error the secondary attempt (failover); on both failing the
synthesized PROCESSORS_UNAVAILABLE response. Returns the winning response
and whether failover was taken. -/
def failoverStep (env : OrchestratorEnv) (primary secondary : String)
    (req : ChargeRequest) (pm : PaymentMethod) (transactionId : String) :
    ChargeResponse × Bool :=
  match (chargeWithProcessor env primary req pm).1 with
  | Except.ok r => (r, false)
  | Except.error _ =>
    match (chargeWithProcessor env secondary req pm).1 with
    | Except.ok r => (r, true)
    | Except.error _ =>
      ({ success := false
         transactionId := transactionId
         processorUsed := "none"
         amount := req.amount
         currency := req.currency
         userMessage := "Payment processing temporarily unavailable. Please try again in a few minutes."
         errorCode := "PROCESSORS_UNAVAILABLE" }, true)

/-- The transaction row processCharge builds: the server transaction id,
the processor transaction id taken from the pre-overwrite result, the
mapped user message, and no transaction_type (Go zero value). `result` is
the response before its transaction id is replaced by the server id. -/
def mkChargeTransaction (req : ChargeRequest) (transactionId : String)
    (result : ChargeResponse) : Transaction :=
  { id := transactionId
    subscriptionId := req.subscriptionId
    paymentMethodId := req.paymentMethodId
    processorUsed := result.processorUsed
    amount := req.amount
    currency := req.currency
    status := getStatus result.success
    transactionType := ""
    idempotencyKey := req.idempotencyKey
    processorTransactionId := result.transactionId
    originalTransactionId := none
    errorCode := result.errorCode
    userErrorMessage := result.userMessage }

/-- processCharge: idempotency check (replay on a hit), routing with
defaults, payment-method load, then the failover step; the transaction row
is stored, the response cached under the idempotency key, and 201/402
returned by success. `transactionId` is the server-generated id. -/
def processCharge (env : OrchestratorEnv) (st : OrchState)
    (req : ChargeRequest) (transactionId : String) :
    ChargeHandlerOutput × OrchState :=
  match checkIdempotency st req.idempotencyKey with
  | some cached => (ChargeHandlerOutput.replay cached, st)
  | none =>
    let routingDecision := resolveRouting env.routing
    match env.paymentMethod with
    | none => (ChargeHandlerOutput.paymentMethodNotFound, st)
    | some paymentMethod =>
      let step := failoverStep env routingDecision.primaryProcessor
        routingDecision.secondaryProcessor req paymentMethod transactionId
      let result := { step.1 with transactionId := transactionId }
      let st2 : OrchState :=
        { cache := cacheIdempotencyResult st.cache req.idempotencyKey result
          transactions := CreateTransaction st.transactions
            (mkChargeTransaction req transactionId step.1) }
      (ChargeHandlerOutput.completed result (if step.1.success then 201 else 402) step.2, st2)

/-! ### Payment orchestrator: refund handler (refunds.go) -/

/-- RefundRequest: the /orchestrator/refund body. -/
structure RefundRequest where
  transactionId : String
  amount : ℚ
  reason : String
deriving DecidableEq, Repr

/-- RefundResponse: the /orchestrator/refund reply body. -/
structure RefundResponse where
  success : Bool
  refundId : String
  transactionId : String
  amount : ℚ
  processorUsed : String
  message : String
deriving DecidableEq, Repr

/-- ProcessorRefundRequest: the body sent to a processor /refund. -/
structure ProcessorRefundRequest where
  originalTransactionId : String
  amount : ℚ
  reason : String
deriving DecidableEq, Repr

/-- ProcessorRefundResponse: the decoded body of a processor /refund reply. -/
structure ProcessorRefundResponse where
  success : Bool
  refundId : String
  message : String
deriving DecidableEq, Repr

/-- The refund environment: each processor refund endpoint as an oracle;
`Except.error` models a transport or decoding failure of the call. -/
structure RefundEnv where
  refundA : ProcessorRefundRequest → Except Unit ProcessorRefundResponse
  refundB : ProcessorRefundRequest → Except Unit ProcessorRefundResponse

/-- GetTransaction by server transaction id. Its SELECT shares the column
list of transactionSelectColumns and therefore also errors against the
migrations schema; the lookup is kept here so the refund handler's
validation and routing logic can be stated over whatever rows exist. -/
def GetTransaction (table : List Transaction) (id : String) : Option Transaction :=
  table.find? (fun t => t.id = id)

/-- What the processRefund handler wrote back, by HTTP status:
404 missing transaction, 400 over-refund, 500 unknown processor,
422 missing processor transaction id, 500 failed call, 200 response. -/
inductive RefundOutcome where
  | txNotFound
  | amountExceedsOriginal
  | unknownProcessor
  | missingProcessorTxId
  | refundProcessingFailed
  | responded (resp : RefundResponse)
deriving DecidableEq, Repr

/-- One processRefund evaluation: the handler outcome, the processor refund
call actually issued (processor name and request, `none` when no call was
made) and the transactions table afterwards. -/
structure RefundStep where
  outcome : RefundOutcome
  call : Option (String × ProcessorRefundRequest)
  transactions : List Transaction
deriving DecidableEq, Repr

/-- processRefund: load the original transaction (404 when missing), reject
amounts above the original (400), route to the processor named by the
original row (500 when unknown), require the original processor transaction
id (422), call refund (500 on transport failure), then attempt to store the
refund row (amount negated, type refund, status refunded, a fresh synthetic
idempotency key, the original id linked) and answer 200.
`freshId` and `freshKey` stand for the two generated UUIDs. -/
def processRefund (env : RefundEnv) (table : List Transaction)
    (req : RefundRequest) (freshId freshKey : String) : RefundStep :=
  match GetTransaction table req.transactionId with
  | none => { outcome := RefundOutcome.txNotFound, call := none, transactions := table }
  | some transaction =>
    if req.amount > transaction.amount then
      { outcome := RefundOutcome.amountExceedsOriginal, call := none, transactions := table }
    else
      let client : Option (ProcessorRefundRequest → Except Unit ProcessorRefundResponse) :=
        if transaction.processorUsed = "processor_a" then some env.refundA
        else if transaction.processorUsed = "processor_b" then some env.refundB
        else none
      match client with
      | none =>
        { outcome := RefundOutcome.unknownProcessor, call := none, transactions := table }
      | some call =>
        if transaction.processorTransactionId = "" then
          { outcome := RefundOutcome.missingProcessorTxId, call := none, transactions := table }
        else
          let refundReq : ProcessorRefundRequest :=
            { originalTransactionId := transaction.processorTransactionId,
              amount := req.amount, reason := req.reason }
          match call refundReq with
          | Except.error _ =>
            { outcome := RefundOutcome.refundProcessingFailed,
              call := some (transaction.processorUsed, refundReq),
              transactions := table }
          | Except.ok refundResp =>
            let refundTransaction : Transaction :=
              { id := freshId
                subscriptionId := transaction.subscriptionId
                paymentMethodId := transaction.paymentMethodId
                processorUsed := transaction.processorUsed
                amount := -req.amount
                currency := transaction.currency
                status := "refunded"
                transactionType := "refund"
                idempotencyKey := "refund_" ++ freshKey
                processorTransactionId := ""
                originalTransactionId := some req.transactionId
                errorCode := ""
                userErrorMessage := "" }
            { outcome := RefundOutcome.responded
                { success := refundResp.success
                  refundId := refundTransaction.id
                  transactionId := req.transactionId
                  amount := req.amount
                  processorUsed := transaction.processorUsed
                  message := "Refund processed successfully" }
              call := some (transaction.processorUsed, refundReq)
              transactions := CreateTransaction table refundTransaction }

/-! ### Subscription service billing and the scheduler job path -/

/-- UpdateSubscriptionStatus over the subscriptions table, modelled as an
association list subscription id to status. -/
def updateSubscriptionStatus (subs : List (String × String))
    (id status : String) : List (String × String) :=
  subs.map (fun p => if p.1 = id then (p.1, status) else p)

def SubscriptionStatusPastDue : String := "past_due"

/-- The ChargeSubscription handler of the subscription service, reduced to
its status effect and the ChargeResult the scheduler sees: a failed
orchestrator call marks the subscription past_due and reports
ORCHESTRATOR_ERROR; a declined charge marks the subscription past_due and
passes the orchestrator error code through; a successful charge advances
the billing period (not modelled) and passes the result through. -/
def chargeSubscriptionStep (subs : List (String × String)) (subscriptionId : String)
    (orchestratorAnswer : Except Unit ChargeResponse) :
    List (String × String) × ChargeResult :=
  match orchestratorAnswer with
  | Except.error _ =>
    (updateSubscriptionStatus subs subscriptionId SubscriptionStatusPastDue,
     { success := false, transactionId := "", processorUsed := "",
       errorCode := "ORCHESTRATOR_ERROR",
       errorMessage := "Failed to process payment. Please try again later." })
  | Except.ok resp =>
    if resp.success then
      (subs,
       { success := true, transactionId := resp.transactionId,
         processorUsed := resp.processorUsed, errorCode := resp.errorCode,
         errorMessage := resp.userMessage })
    else
      (updateSubscriptionStatus subs subscriptionId SubscriptionStatusPastDue,
       { success := false, transactionId := "", processorUsed := "",
         errorCode := resp.errorCode, errorMessage := resp.userMessage })

/-- The retry-queue effect of Executor.ProcessJob on a billing job: nothing
on success; on failure, classify the error code and call CreateRetryEntry
only for a soft decline (a hard decline is logged and nothing else is
done); a CreateRetryEntry failure is only logged. Returns the retry table
and the terminal job status. -/
def processJobRetryEffect (retries : List RetryEntry) (subscriptionId : String)
    (result : ChargeResult) (policy : RetryPolicy) (now : Nat)
    (freshId : String) : List RetryEntry × String :=
  if result.success then (retries, "completed")
  else
    let declineType := ClassifyError result.errorCode
    if declineType = DeclineType.soft then
      match CreateRetryEntry retries
          (newRetryEntry freshId subscriptionId result.errorCode
            result.errorMessage declineType policy now) with
      | Except.ok (_, retries2) => (retries2, "failed")
      | Except.error _ => (retries, "failed")
    else (retries, "failed")

/-- One scheduler billing attempt end to end: the subscription service
charge (with its past_due effect) followed by ProcessJob retry handling. -/
def schedulerBillingAttempt (subs : List (String × String))
    (retries : List RetryEntry) (subscriptionId : String)
    (orchestratorAnswer : Except Unit ChargeResponse) (policy : RetryPolicy)
    (now : Nat) (freshId : String) :
    List (String × String) × List RetryEntry × String :=
  let step := chargeSubscriptionStep subs subscriptionId orchestratorAnswer
  let retryStep := processJobRetryEffect retries subscriptionId step.2 policy now freshId
  (step.1, retryStep.1, retryStep.2)

/-! ### Helper observations and concrete fixtures -/

deriving instance DecidableEq for Except

/-- Whether an Except value is an error (what the Go callers test). -/
def exceptFailed {ε α : Type} : Except ε α → Bool
  | Except.ok _ => false
  | Except.error _ => true

/-- The successful rows of the transactions table carrying a given
idempotency key. -/
def successRowsForKey (table : List Transaction) (key : String) : List Transaction :=
  table.filter (fun t => t.idempotencyKey = key ∧ t.status = "success")

/-- A payment method with a network token. -/
def examplePM : PaymentMethod :=
  { id := "pm1", userId := "u1", networkToken := "ntk_x",
    processorAToken := "", processorBToken := "",
    tokenType := "network", lastFour := "4242" }

/-- A payment method with no token at all. -/
def examplePMNoTokens : PaymentMethod :=
  { id := "pm2", userId := "u1", networkToken := "",
    processorAToken := "", processorBToken := "",
    tokenType := "dual_vault", lastFour := "0000" }

/-- A successful processor A charge body. -/
def exampleOkBodyA : ProcessorChargeResponse :=
  { success := true, transactionId := "ptxA1", authCode := "A1",
    errorCode := "", errorMessage := "" }

/-- A successful processor B charge body. -/
def exampleOkBodyB : ProcessorChargeResponse :=
  { success := true, transactionId := "ptxB1", authCode := "B1",
    errorCode := "", errorMessage := "" }

/-- The body of a 400 reply. -/
def exampleBadRequestBody : ProcessorChargeResponse :=
  { success := false, transactionId := "", authCode := "",
    errorCode := "INVALID_REQUEST", errorMessage := "missing token" }

/-- A BPAS routing decision: primary processor_a, secondary processor_b. -/
def exampleRouting : RoutingDecision :=
  { primaryProcessor := "processor_a", secondaryProcessor := "processor_b",
    confidence := 9/10 }

/-- Both processors healthy and succeeding. -/
def exampleEnvOk : OrchestratorEnv :=
  { healthyA := true, healthyB := true,
    chargeA := fun _ => ChargeOutcome.httpResponse 200 exampleOkBodyA,
    chargeB := fun _ => ChargeOutcome.httpResponse 200 exampleOkBodyB,
    routing := some exampleRouting, paymentMethod := some examplePM }

/-- Processor A healthy but answering HTTP 400; processor B succeeding. -/
def exampleEnv400 : OrchestratorEnv :=
  { healthyA := true, healthyB := true,
    chargeA := fun _ => ChargeOutcome.httpResponse 400 exampleBadRequestBody,
    chargeB := fun _ => ChargeOutcome.httpResponse 200 exampleOkBodyB,
    routing := some exampleRouting, paymentMethod := some examplePM }

/-- Healthy succeeding processors with a token-less payment method. -/
def exampleEnvOkNoTokens : OrchestratorEnv :=
  { healthyA := true, healthyB := true,
    chargeA := fun _ => ChargeOutcome.httpResponse 200 exampleOkBodyA,
    chargeB := fun _ => ChargeOutcome.httpResponse 200 exampleOkBodyB,
    routing := some exampleRouting, paymentMethod := some examplePMNoTokens }

/-- A charge request with idempotency key k-1. -/
def exampleChargeReq : ChargeRequest :=
  { subscriptionId := "s1", paymentMethodId := "pm1", amount := 29,
    currency := "USD", idempotencyKey := "k-1" }

/-- The empty orchestrator store. -/
def emptyOrchState : OrchState := { cache := [], transactions := [] }

/-- The response the first successful charge of exampleChargeReq returns. -/
def exampleRespOk : ChargeResponse :=
  { success := true, transactionId := "t1", processorUsed := "processor_a",
    amount := 29, currency := "USD",
    userMessage := "Payment could not be processed. Please try again.",
    errorCode := "" }

/-- A pending retry entry for subscription s1 at attempt 1 of 3. -/
def examplePendingRetry : RetryEntry :=
  { id := "r1", subscriptionId := "s1", attempt := 1, maxAttempts := 3,
    status := RetryStatusPending, lastErrorCode := "insufficient_funds",
    lastErrorMessage := "Insufficient funds", declineType := "soft",
    nextRetryAt := 3600, lastAttemptAt := none, transactionId := "",
    processorUsed := "", createdAt := 0, updatedAt := 0, resolvedAt := none }

/-- A retry entry being processed at its final allowed attempt (3 of 3). -/
def exampleRetryAtMax : RetryEntry :=
  { id := "r3", subscriptionId := "s1", attempt := 3, maxAttempts := 3,
    status := RetryStatusProcessing, lastErrorCode := "insufficient_funds",
    lastErrorMessage := "Insufficient funds", declineType := "soft",
    nextRetryAt := 90000, lastAttemptAt := some 90000, transactionId := "",
    processorUsed := "", createdAt := 0, updatedAt := 90000, resolvedAt := none }

/-- A hard-decline charge result (expired_card). -/
def exampleHardResult : ChargeResult :=
  { success := false, transactionId := "", processorUsed := "",
    errorCode := "expired_card", errorMessage := "Your card has expired" }

/-- A hard-decline orchestrator answer as the subscription service sees it. -/
def exampleHardDeclineAnswer : ChargeResponse :=
  { success := false, transactionId := "tx9", processorUsed := "processor_a",
    amount := 29, currency := "USD",
    userMessage := "Your card has expired. Please update your payment method.",
    errorCode := "expired_card" }

/-- An original successful charge transaction on processor_a. -/
def exampleOriginalTx : Transaction :=
  { id := "T1", subscriptionId := "s1", paymentMethodId := "pm1",
    processorUsed := "processor_a", amount := 29, currency := "USD",
    status := "success", transactionType := "charge", idempotencyKey := "k-1",
    processorTransactionId := "ptx1", originalTransactionId := none,
    errorCode := "", userErrorMessage := "" }

/-- A successful processor refund body. -/
def exampleProcessorRefundOk : ProcessorRefundResponse :=
  { success := true, refundId := "prf1", message := "ok" }

/-- A refund environment where processor A refunds succeed. -/
def exampleRefundEnvOk : RefundEnv :=
  { refundA := fun _ => Except.ok exampleProcessorRefundOk,
    refundB := fun _ => Except.error () }

/-- A valid partial refund request against T1. -/
def exampleRefundReq : RefundRequest :=
  { transactionId := "T1", amount := 1, reason := "test" }

/-- A refund request with a negative amount. -/
def exampleNegativeRefundReq : RefundRequest :=
  { transactionId := "T1", amount := -5, reason := "test" }

/-- A refund request exceeding the original amount. -/
def exampleOverRefundReq : RefundRequest :=
  { transactionId := "T1", amount := 30, reason := "test" }

/-- An active 70 percent rule targeting processor_a. -/
def examplePctRule : RoutingRule :=
  { name := "default_primary_split", priority := 10,
    conditionType := "percentage", conditionValue := ConditionValue.empty,
    targetProcessor := "processor_a", percentage := 70, isActive := true }

/-- An inactive currency rule. -/
def exampleInactiveRule : RoutingRule :=
  { name := "off", priority := 1, conditionType := "currency",
    conditionValue := { ConditionValue.empty with currencies := some ["EUR"] },
    targetProcessor := "processor_b", percentage := 100, isActive := false }

/-- An active currency rule matching USD. -/
def exampleCurrencyRule : RoutingRule :=
  { name := "usd_rule", priority := 2, conditionType := "currency",
    conditionValue := { ConditionValue.empty with currencies := some ["USD"] },
    targetProcessor := "processor_b", percentage := 100, isActive := true }

/-- An evaluation request for 50 USD. -/
def exampleEvalReq : EvaluationRequest :=
  { amount := 50, currency := "USD", marketplace := "", userTier := "",
    userId := "", clientId := "" }

/-- A draw stream always returning 40. -/
def exampleDraws : Nat → Nat := fun _ => 40

/-- The processor charge request that chargeWithProcessor issues for a
given processor name (used to state properties of the outgoing call). -/
def processorRequestFor (req : ChargeRequest) (pm : PaymentMethod)
    (processor : String) : ProcessorChargeRequest :=
  { amount := req.amount
    currency := req.currency
    token := selectToken pm processor
    idempotencyKey := req.idempotencyKey }

/-- The refund transaction row processRefund builds for exampleRefundReq. -/
def exampleRefundRowAttempt : Transaction :=
  { id := "R1", subscriptionId := "s1", paymentMethodId := "pm1",
    processorUsed := "processor_a", amount := -1, currency := "USD",
    status := "refunded", transactionType := "refund",
    idempotencyKey := "refund_u1", processorTransactionId := "",
    originalTransactionId := some ("T1"), errorCode := "",
    userErrorMessage := "" }

/-! ### Theorems -/

/-- C3, counterexample: at attempt 3 of 3 a failure with the hard-decline
code expired_card moves the entry to exhausted, not to failed as the claim
states for every hard-decline code — UpdateRetryAfterAttempt checks
exhaustion before classifying the error. -/
theorem C3_hard_decline_at_max_counterexample :
    ClassifyError ("expired_card") = DeclineType.hard ∧
    exampleRetryAtMax.attempt = exampleRetryAtMax.maxAttempts ∧
    (UpdateRetryAfterAttempt exampleRetryAtMax false exampleHardResult
        DefaultRetryPolicy 100).status = RetryStatusExhausted ∧
    (UpdateRetryAfterAttempt exampleRetryAtMax false exampleHardResult
        DefaultRetryPolicy 100).status ≠ RetryStatusFailed := by
  decide

/-- C3 (amended): on a failed attempt at attempt n, if n ≥ max_attempts the
entry moves to exhausted regardless of the error class (exhaustion is
checked before classification); otherwise a hard-decline code moves it to
failed; otherwise a soft or unknown code moves it back to pending with
attempt n+1 and next_retry_at = now + the (n+1)-th interval of
{1 h, 24 h, 72 h}, intervals past the last clamping to the last; terminal
transitions set resolved_at; and a newly created entry starts at attempt 1
with next_retry_at = now + 1 h. -/
theorem C3_retry_transition_amended
    (entry : RetryEntry) (result : ChargeResult) (now now2 : Nat)
    (id sid ec em : String) (dt : DeclineType)
    (hmax : entry.maxAttempts = 3) :
    (entry.attempt ≥ 3 →
        (UpdateRetryAfterAttempt entry false result DefaultRetryPolicy now).status
            = RetryStatusExhausted ∧
        (UpdateRetryAfterAttempt entry false result DefaultRetryPolicy now).resolvedAt
            = some now) ∧
    (entry.attempt < 3 → ClassifyError result.errorCode = DeclineType.hard →
        (UpdateRetryAfterAttempt entry false result DefaultRetryPolicy now).status
            = RetryStatusFailed ∧
        (UpdateRetryAfterAttempt entry false result DefaultRetryPolicy now).resolvedAt
            = some now) ∧
    (entry.attempt < 3 → ClassifyError result.errorCode = DeclineType.soft →
        (UpdateRetryAfterAttempt entry false result DefaultRetryPolicy now).status
            = RetryStatusPending ∧
        (UpdateRetryAfterAttempt entry false result DefaultRetryPolicy now).attempt
            = entry.attempt + 1 ∧
        (UpdateRetryAfterAttempt entry false result DefaultRetryPolicy now).nextRetryAt
            = now + GetRetryInterval DefaultRetryPolicy (entry.attempt + 1) ∧
        (UpdateRetryAfterAttempt entry false result DefaultRetryPolicy now).resolvedAt
            = entry.resolvedAt) ∧
    (∀ n, n > 3 → GetRetryInterval DefaultRetryPolicy n = 259200) ∧
    ((newRetryEntry id sid ec em dt DefaultRetryPolicy now2).attempt = 1 ∧
     (newRetryEntry id sid ec em dt DefaultRetryPolicy now2).status = RetryStatusPending ∧
     (newRetryEntry id sid ec em dt DefaultRetryPolicy now2).nextRetryAt = now2 + 3600) := by
  refine ⟨?_, ?_, ?_, ?_, ?_, ?_, ?_⟩
  · intro h
    have hgt : entry.attempt + 1 > entry.maxAttempts := by omega
    simp [UpdateRetryAfterAttempt, hgt]
  · intro h hhard
    have hle : ¬ (entry.attempt + 1 > entry.maxAttempts) := by omega
    simp [UpdateRetryAfterAttempt, hle, hhard]
  · intro h hsoft
    have hle : ¬ (entry.attempt + 1 > entry.maxAttempts) := by omega
    simp [UpdateRetryAfterAttempt, hle, hsoft, CalculateNextRetry]
  · intro n hn
    have h0 : n ≠ 0 := by omega
    have h3 : n > 3 := hn
    simp [GetRetryInterval, DefaultRetryPolicy, h0, h3]
  · simp [newRetryEntry]
  · simp [newRetryEntry]
  · simp [newRetryEntry, CalculateNextRetry, GetRetryInterval, DefaultRetryPolicy]

/-- C3 witness: the amended theorem evaluated at the concrete entry at
attempt 3 of 3 under an expired_card failure, and at a fresh entry. -/
theorem C3_retry_transition_amended_witness :
    (UpdateRetryAfterAttempt exampleRetryAtMax false exampleHardResult
        DefaultRetryPolicy 100).status = RetryStatusExhausted ∧
    (newRetryEntry ("r9") ("s2") ("insufficient_funds") ("x")
        DeclineType.soft DefaultRetryPolicy 1000).nextRetryAt = 1000 + 3600 := by
  have h := C3_retry_transition_amended exampleRetryAtMax exampleHardResult 100 1000
    ("r9") ("s2") ("insufficient_funds") ("x") DeclineType.soft (by decide)
  exact ⟨(h.1 (by decide)).1, h.2.2.2.2.2.2⟩

/-- C5, code bug at the failing input: none of the indexes that
EnsureRetryTableExists creates on retry_queue can arbitrate the
`ON CONFLICT (subscription_id) WHERE status = 'pending'` clause of
CreateRetryEntry, so the INSERT is rejected and with no existing pending
entry CreateRetryEntry returns an error instead of upserting — nothing at
the storage layer enforces the one-active-per-subscription invariant. -/
theorem C5_missing_arbiter_index :
    retryQueueIndexes.find? matchesRetryArbiter = none ∧
    CreateRetryEntry []
        (newRetryEntry ("r1") ("s2") ("insufficient_funds") ("Insufficient funds")
          DeclineType.soft DefaultRetryPolicy 1000) =
      Except.error ("failed to create retry entry") := by
  exact ⟨by decide, by rfl⟩

/-- C9: rule evaluation skips inactive rules, takes an active percentage
rule exactly when the draw is below the rule percentage and otherwise
continues with the next rule (consuming the draw), takes the first active
matching non-percentage rule immediately, returns
(processor_a, no rule, confidence 0.5) when no rule is taken, and the rule
list the service evaluates is sorted ascending by priority. -/
theorem C9_rule_evaluation
    (req : EvaluationRequest) (draws : Nat → Nat) (k : Nat)
    (rule : RoutingRule) (rest : List RoutingRule) (cfg : List RoutingRule) :
    (rule.isActive = false →
        evaluateRules req draws (rule :: rest) k = evaluateRules req draws rest k) ∧
    (rule.isActive = true → rule.conditionType = "percentage" →
        evaluateRules req draws (rule :: rest) k =
          if draws k < rule.percentage then (rule.targetProcessor, some rule, 1)
          else evaluateRules req draws rest (k + 1)) ∧
    (rule.isActive = true → rule.conditionType ≠ "percentage" →
        matchesRule req rule = true →
        evaluateRules req draws (rule :: rest) k =
          (rule.targetProcessor, some rule, calculateConfidence rule req)) ∧
    (rule.isActive = true → matchesRule req rule = false →
        evaluateRules req draws (rule :: rest) k = evaluateRules req draws rest k) ∧
    (evaluateRules req draws [] k = ("processor_a", none, 1/2)) ∧
    List.Pairwise (fun a b => a.priority ≤ b.priority) (sortRulesByPriority cfg) := by
  refine ⟨?_, ?_, ?_, ?_, ?_, ?_⟩
  · intro h
    simp [evaluateRules, h]
  · intro ha hp
    have hm : matchesRule req rule = true := by
      simp [matchesRule, hp]
    simp [evaluateRules, ha, hm, hp]
  · intro ha hnp hm
    simp [evaluateRules, ha, hm, hnp]
  · intro ha hm
    simp [evaluateRules, ha, hm]
  · simp [evaluateRules]
  · have h := @List.sorted_mergeSort RoutingRule
      (fun a b => decide (a.priority ≤ b.priority))
      (fun a b c hab hbc => by
        simp only [decide_eq_true_eq] at hab hbc ⊢
        omega)
      (fun a b => by
        simp only [Bool.or_eq_true, decide_eq_true_eq]
        omega) cfg
    simpa [sortRulesByPriority] using h

/-- C9 witness: the theorem evaluated on a concrete percentage rule with a
draw of 40 against percentage 70, and on the empty rule list. -/
theorem C9_rule_evaluation_witness :
    (evaluateRules exampleEvalReq exampleDraws [examplePctRule] 0 =
      if exampleDraws 0 < examplePctRule.percentage then
        (examplePctRule.targetProcessor, some examplePctRule, 1)
      else evaluateRules exampleEvalReq exampleDraws [] 1) ∧
    evaluateRules exampleEvalReq exampleDraws [] 5 = ("processor_a", none, 1/2) := by
  have h := C9_rule_evaluation exampleEvalReq exampleDraws 0 examplePctRule [] []
  exact ⟨h.2.1 (by decide) (by decide), (C9_rule_evaluation exampleEvalReq exampleDraws 5
    examplePctRule [] []).2.2.2.2.1⟩

/-- C4, counterexample: a scheduler billing attempt that fails with the
hard-decline code expired_card leaves an existing pending RetryEntry for
the subscription untouched (still pending) — ProcessJob only logs a hard
decline; it never closes an active retry as failed. -/
theorem C4_existing_retry_untouched_counterexample :
    ClassifyError exampleHardDeclineAnswer.errorCode = DeclineType.hard ∧
    examplePendingRetry.status = RetryStatusPending ∧
    (schedulerBillingAttempt [("s1", "active")] [examplePendingRetry] ("s1")
        (Except.ok exampleHardDeclineAnswer) DefaultRetryPolicy 1000 ("r2")).2.1
      = [examplePendingRetry] ∧
    ((schedulerBillingAttempt [("s1", "active")] [examplePendingRetry] ("s1")
        (Except.ok exampleHardDeclineAnswer) DefaultRetryPolicy 1000 ("r2")).2.1.map
      (fun e => e.status)) = [RetryStatusPending] := by
  decide

/-- C4 (amended): for every scheduler billing attempt that fails with a
hard-decline error code, no new RetryEntry is created and the retry table
is left entirely unchanged (an existing active entry is not closed as
failed), the subscription status is set to past_due (the subscription
service marks past_due on any failed charge), and the job ends failed. -/
theorem C4_hard_decline_amended
    (subs : List (String × String)) (retries : List RetryEntry)
    (sid : String) (resp : ChargeResponse) (policy : RetryPolicy)
    (now : Nat) (freshId : String)
    (hfail : resp.success = false)
    (hhard : ClassifyError resp.errorCode = DeclineType.hard) :
    (schedulerBillingAttempt subs retries sid (Except.ok resp) policy now freshId).2.1
      = retries ∧
    (schedulerBillingAttempt subs retries sid (Except.ok resp) policy now freshId).1
      = updateSubscriptionStatus subs sid SubscriptionStatusPastDue ∧
    (schedulerBillingAttempt subs retries sid (Except.ok resp) policy now freshId).2.2
      = "failed" := by
  refine ⟨?_, ?_, ?_⟩ <;>
    simp [schedulerBillingAttempt, chargeSubscriptionStep, processJobRetryEffect,
      hfail, hhard]

/-- C4 witness: the amended theorem evaluated at a subscription with an
existing pending retry entry and an expired_card decline. -/
theorem C4_hard_decline_amended_witness :
    (schedulerBillingAttempt [("s1", "active")] [examplePendingRetry] ("s1")
        (Except.ok exampleHardDeclineAnswer) DefaultRetryPolicy 1000 ("r2")).2.1
      = [examplePendingRetry] ∧
    (schedulerBillingAttempt [("s1", "active")] [examplePendingRetry] ("s1")
        (Except.ok exampleHardDeclineAnswer) DefaultRetryPolicy 1000 ("r2")).1
      = updateSubscriptionStatus [("s1", "active")] ("s1") SubscriptionStatusPastDue ∧
    (schedulerBillingAttempt [("s1", "active")] [examplePendingRetry] ("s1")
        (Except.ok exampleHardDeclineAnswer) DefaultRetryPolicy 1000 ("r2")).2.2
      = "failed" :=
  C4_hard_decline_amended [("s1", "active")] [examplePendingRetry] ("s1")
    exampleHardDeclineAnswer DefaultRetryPolicy 1000 ("r2") (by decide) (by decide)

/-- C6, code bug at the failing input (a 1.00 refund of the 29.00 charge T1
authorized by processor_a, refund call succeeding): processRefund does
route the refund to the original processor and answers 200, and it builds
the row with amount -1, type refund, status refunded, the original id and a
fresh synthetic key — but the CreateTransaction INSERT names the
user_error_message column no migration creates, and the negative amount
violates the transactions check constraint chk_amount_positive, so no row
is stored at all; and the INSERT omits the transaction_type column, so
even an accepted row would be stored with the schema default charge, not
refund. -/
theorem C6_refund_row_rejected_by_schema :
    (processRefund exampleRefundEnvOk [exampleOriginalTx] exampleRefundReq
        ("R1") ("u1")).call
      = some (("processor_a"),
          { originalTransactionId := "ptx1", amount := 1, reason := "test" }) ∧
    (processRefund exampleRefundEnvOk [exampleOriginalTx] exampleRefundReq
        ("R1") ("u1")).outcome
      = RefundOutcome.responded
          { success := true, refundId := "R1", transactionId := "T1",
            amount := 1, processorUsed := "processor_a",
            message := "Refund processed successfully" } ∧
    ¬ (0 < exampleRefundRowAttempt.amount) ∧
    CreateTransaction [exampleOriginalTx] exampleRefundRowAttempt
      = [exampleOriginalTx] ∧
    (processRefund exampleRefundEnvOk [exampleOriginalTx] exampleRefundReq
        ("R1") ("u1")).transactions = [exampleOriginalTx] ∧
    (persistedRow exampleRefundRowAttempt).transactionType = "charge" := by
  decide

/-- C7, counterexample: a refund request for a negative amount (-5 against
the 29.00 original) is not rejected with 400 — the handler only checks
amount > original, so the processor is called with the negative amount,
contradicting the claim for non-positive amounts. -/
theorem C7_nonpositive_amount_counterexample :
    exampleNegativeRefundReq.amount ≤ 0 ∧
    (processRefund exampleRefundEnvOk [exampleOriginalTx] exampleNegativeRefundReq
        ("R2") ("u2")).outcome ≠ RefundOutcome.amountExceedsOriginal ∧
    (processRefund exampleRefundEnvOk [exampleOriginalTx] exampleNegativeRefundReq
        ("R2") ("u2")).call
      = some (("processor_a"),
          { originalTransactionId := "ptx1", amount := -5, reason := "test" }) := by
  decide

/-- C7 (amended): every refund request whose amount exceeds the original
transaction's amount is rejected with HTTP 400 with no processor call and
no new transaction row; there is no positivity check, so a non-positive
amount (at most the original) is not rejected by this validation. -/
theorem C7_over_refund_amended
    (env : RefundEnv) (table : List Transaction) (req : RefundRequest)
    (freshId freshKey : String) (orig : Transaction)
    (hfind : GetTransaction table req.transactionId = some orig)
    (hover : req.amount > orig.amount) :
    processRefund env table req freshId freshKey =
      { outcome := RefundOutcome.amountExceedsOriginal, call := none,
        transactions := table } := by
  simp [processRefund, hfind, hover]

/-- C7 witness: the amended theorem evaluated at a 30.00 refund of the
29.00 original T1. -/
theorem C7_over_refund_amended_witness :
    processRefund exampleRefundEnvOk [exampleOriginalTx] exampleOverRefundReq
      ("R3") ("u3") =
      { outcome := RefundOutcome.amountExceedsOriginal, call := none,
        transactions := [exampleOriginalTx] } :=
  C7_over_refund_amended exampleRefundEnvOk [exampleOriginalTx] exampleOverRefundReq
    ("R3") ("u3") exampleOriginalTx (by decide) (by decide)

/-- C8, counterexample: with a payment method carrying no token at all,
selectToken returns the empty string and chargeWithProcessor still calls
the processor (with token "") instead of failing the attempt locally as a
missing-token failure — here the attempt even succeeds. -/
theorem C8_missing_token_counterexample :
    selectToken examplePMNoTokens ("processor_a") = "" ∧
    (chargeWithProcessor exampleEnvOkNoTokens ("processor_a") exampleChargeReq
        examplePMNoTokens).2
      = some { amount := 29, currency := "USD", token := "",
               idempotencyKey := "k-1" } ∧
    (chargeWithProcessor exampleEnvOkNoTokens ("processor_a") exampleChargeReq
        examplePMNoTokens).1
      = Except.ok
          { success := true, transactionId := "ptxA1",
            processorUsed := "processor_a", amount := 29, currency := "USD",
            userMessage := "Payment could not be processed. Please try again.",
            errorCode := "" } := by
  decide

/-- C8 (amended): the token supplied to the processor is the payment
method's network_token when present (for either processor); otherwise the
processor-specific token of the chosen processor when present; otherwise
any present processor-specific token; and when no token at all is present
the empty string is selected and the processor is still called with it —
the attempt is not failed locally. -/
theorem C8_token_precedence_amended
    (pm : PaymentMethod) (env : OrchestratorEnv) (req : ChargeRequest)
    (processor : String) :
    (pm.networkToken ≠ "" → selectToken pm processor = pm.networkToken) ∧
    (pm.networkToken = "" → pm.processorAToken ≠ "" →
        selectToken pm ("processor_a") = pm.processorAToken) ∧
    (pm.networkToken = "" → pm.processorBToken ≠ "" →
        selectToken pm ("processor_b") = pm.processorBToken) ∧
    (pm.networkToken = "" → pm.processorBToken = "" → pm.processorAToken ≠ "" →
        selectToken pm ("processor_b") = pm.processorAToken) ∧
    (pm.networkToken = "" → pm.processorAToken = "" → pm.processorBToken ≠ "" →
        selectToken pm ("processor_a") = pm.processorBToken) ∧
    (pm.networkToken = "" → pm.processorAToken = "" → pm.processorBToken = "" →
        selectToken pm processor = "") ∧
    (env.healthyA = true → pm.networkToken = "" → pm.processorAToken = "" →
        pm.processorBToken = "" →
        (chargeWithProcessor env ("processor_a") req pm).2
          = some { amount := req.amount, currency := req.currency, token := "",
                   idempotencyKey := req.idempotencyKey }) := by
  refine ⟨?_, ?_, ?_, ?_, ?_, ?_, ?_⟩
  · intro hn
    simp [selectToken, hn]
  · intro hn hA
    simp [selectToken, hn, hA]
  · intro hn hB
    simp [selectToken, hn, hB]
  · intro hn hB hA
    simp [selectToken, hn, hB, hA]
  · intro hn hA hB
    simp [selectToken, hn, hA, hB]
  · intro hn hA hB
    simp [selectToken, hn, hA, hB]
  · intro hh hn hA hB
    have hts : selectToken pm ("processor_a") = "" := by
      simp [selectToken, hn, hA, hB]
    simp only [chargeWithProcessor, hts, hh]
    cases hr : processorChargeResult
        (env.chargeA
          { amount := req.amount, currency := req.currency, token := "",
            idempotencyKey := req.idempotencyKey }) <;>
      simp [hr]

/-- C8 witness: the amended theorem evaluated at the token-less payment
method against a healthy processor A. -/
theorem C8_token_precedence_amended_witness :
    (chargeWithProcessor exampleEnvOkNoTokens ("processor_a") exampleChargeReq
        examplePMNoTokens).2
      = some { amount := exampleChargeReq.amount,
               currency := exampleChargeReq.currency, token := "",
               idempotencyKey := exampleChargeReq.idempotencyKey } :=
  (C8_token_precedence_amended examplePMNoTokens exampleEnvOkNoTokens
    exampleChargeReq ("processor_a")).2.2.2.2.2.2
    (by decide) (by decide) (by decide) (by decide)

/-- Helper: a cache or store hit makes processCharge replay the stored
response unchanged. -/
theorem processCharge_replay_eq (env : OrchestratorEnv) (st : OrchState)
    (req : ChargeRequest) (tid : String) (cached : ChargeResponse)
    (h : checkIdempotency st req.idempotencyKey = some cached) :
    processCharge env st req tid = (ChargeHandlerOutput.replay cached, st) := by
  simp [processCharge, h]

/-- Helper: a missing payment method makes processCharge answer 404. -/
theorem processCharge_notFound_eq (env : OrchestratorEnv) (st : OrchState)
    (req : ChargeRequest) (tid : String)
    (hchk : checkIdempotency st req.idempotencyKey = none)
    (hpm : env.paymentMethod = none) :
    processCharge env st req tid = (ChargeHandlerOutput.paymentMethodNotFound, st) := by
  simp [processCharge, hchk, hpm]

/-- Helper: with no idempotency hit and a loaded payment method,
processCharge is the failover step followed by persistence and caching. -/
theorem processCharge_completed_eq (env : OrchestratorEnv) (st : OrchState)
    (req : ChargeRequest) (tid : String) (pm : PaymentMethod)
    (hchk : checkIdempotency st req.idempotencyKey = none)
    (hpm : env.paymentMethod = some pm) :
    processCharge env st req tid =
      (ChargeHandlerOutput.completed
          { (failoverStep env (resolveRouting env.routing).primaryProcessor
              (resolveRouting env.routing).secondaryProcessor req pm tid).1 with
              transactionId := tid }
          (if (failoverStep env (resolveRouting env.routing).primaryProcessor
              (resolveRouting env.routing).secondaryProcessor req pm tid).1.success
           then 201 else 402)
          (failoverStep env (resolveRouting env.routing).primaryProcessor
            (resolveRouting env.routing).secondaryProcessor req pm tid).2,
        { cache := cacheIdempotencyResult st.cache req.idempotencyKey
            { (failoverStep env (resolveRouting env.routing).primaryProcessor
                (resolveRouting env.routing).secondaryProcessor req pm tid).1 with
                transactionId := tid }
          transactions := CreateTransaction st.transactions
            (mkChargeTransaction req tid
              (failoverStep env (resolveRouting env.routing).primaryProcessor
                (resolveRouting env.routing).secondaryProcessor req pm tid).1) }) := by
  simp [processCharge, hchk, hpm]

/-- Helper: failover is taken exactly when the primary attempt errors. -/
theorem failoverStep_snd (env : OrchestratorEnv) (p s : String)
    (req : ChargeRequest) (pm : PaymentMethod) (tid : String) :
    (failoverStep env p s req pm tid).2
      = exceptFailed (chargeWithProcessor env p req pm).1 := by
  unfold failoverStep
  cases (chargeWithProcessor env p req pm).1 with
  | ok r => simp [exceptFailed]
  | error e =>
    cases (chargeWithProcessor env s req pm).1 with
    | ok r => simp [exceptFailed]
    | error e2 => simp [exceptFailed]

/-- Helper: a healthy processor A answering 200 or 402 yields a decoded
response, never an error (a decline is a business answer). -/
theorem chargeWithProcessor_a_resp (env : OrchestratorEnv) (req : ChargeRequest)
    (pm : PaymentMethod) (s : Nat) (body : ProcessorChargeResponse)
    (hh : env.healthyA = true)
    (ho : env.chargeA (processorRequestFor req pm ("processor_a"))
        = ChargeOutcome.httpResponse s body)
    (hs : s = 200 ∨ s = 402) :
    (chargeWithProcessor env ("processor_a") req pm).1 =
      Except.ok
        { success := body.success, transactionId := body.transactionId,
          processorUsed := "processor_a", amount := req.amount,
          currency := req.currency,
          userMessage := mapErrorToUserMessage body.errorCode,
          errorCode := body.errorCode } := by
  have hcond : ¬ (s ≠ 200 ∧ s ≠ 402) := by
    rcases hs with h | h <;> simp [h]
  simp only [processorRequestFor] at ho
  simp [chargeWithProcessor, hh, ho, processorChargeResult, hcond]

/-- C1, counterexample: processor A is healthy and answers HTTP 400 (a 4xx
other than 402, not a transport failure), yet processCharge fails over to
processor B — the code treats every non-200/402 status as failover
eligible, contradicting the claim that other 4xx responses are fatal for
the attempt without failover. -/
theorem C1_other_4xx_triggers_failover_counterexample :
    exampleEnv400.healthyA = true ∧
    exampleEnv400.chargeA (processorRequestFor exampleChargeReq examplePM ("processor_a"))
      = ChargeOutcome.httpResponse 400 exampleBadRequestBody ∧
    (processCharge exampleEnv400 emptyOrchState exampleChargeReq ("t1")).1
      = ChargeHandlerOutput.completed
          { success := true, transactionId := "t1", processorUsed := "processor_b",
            amount := 29, currency := "USD",
            userMessage := "Payment could not be processed. Please try again.",
            errorCode := "" } 201 true := by
  decide

/-- C1 (amended): for a /orchestrator/charge with primary processor_a and
secondary processor_b, no idempotency hit and a loaded payment method, the
secondary is attempted exactly when the primary attempt returns an error;
the primary attempt errors exactly when the primary is marked unhealthy or
its charge call fails, and for an HTTP response that is exactly when the
status is neither 200 nor 402 (so any other 4xx also triggers failover,
and a transport failure always errors); a 402 decline from the healthy
primary is a business answer, final for the attempt, and never triggers
failover. -/
theorem C1_failover_condition_amended
    (env : OrchestratorEnv) (st : OrchState) (req : ChargeRequest)
    (tid : String) (pm : PaymentMethod) (c : ℚ)
    (hchk : checkIdempotency st req.idempotencyKey = none)
    (hpm : env.paymentMethod = some pm)
    (hrt : env.routing = some (RoutingDecision.mk ("processor_a") ("processor_b") c)) :
    (∀ resp s f, (processCharge env st req tid).1 = ChargeHandlerOutput.completed resp s f →
        (f = true ↔ exceptFailed (chargeWithProcessor env ("processor_a") req pm).1 = true)) ∧
    (exceptFailed (chargeWithProcessor env ("processor_a") req pm).1 = true ↔
        (env.healthyA = false ∨
          exceptFailed (processorChargeResult
            (env.chargeA (processorRequestFor req pm ("processor_a")))) = true)) ∧
    (∀ s body, exceptFailed (processorChargeResult (ChargeOutcome.httpResponse s body)) = true
        ↔ (s ≠ 200 ∧ s ≠ 402)) ∧
    (exceptFailed (processorChargeResult ChargeOutcome.transportError) = true) ∧
    (∀ body resp s f, env.healthyA = true →
        env.chargeA (processorRequestFor req pm ("processor_a"))
          = ChargeOutcome.httpResponse 402 body →
        (processCharge env st req tid).1 = ChargeHandlerOutput.completed resp s f →
        f = false) := by
  have hroute : resolveRouting env.routing =
      RoutingDecision.mk ("processor_a") ("processor_b") c := by
    simp [hrt, resolveRouting]
  refine ⟨?_, ?_, ?_, ?_, ?_⟩
  · intro resp s f h
    rw [processCharge_completed_eq env st req tid pm hchk hpm] at h
    simp only [hroute] at h
    simp only [ChargeHandlerOutput.completed.injEq] at h
    rw [h.2.2.symm, failoverStep_snd]
  · cases hh : env.healthyA with
    | false =>
      simp [chargeWithProcessor, hh, exceptFailed]
    | true =>
      simp only [chargeWithProcessor, hh, processorRequestFor]
      cases hr : processorChargeResult (env.chargeA
          { amount := req.amount, currency := req.currency,
            token := selectToken pm ("processor_a"),
            idempotencyKey := req.idempotencyKey }) with
      | ok r => simp [hr, exceptFailed]
      | error e => simp [hr, exceptFailed]
  · intro s body
    by_cases hcond : (s ≠ 200 ∧ s ≠ 402)
    · simp [processorChargeResult, hcond, exceptFailed]
    · simp [processorChargeResult, hcond, exceptFailed]
  · simp [processorChargeResult, exceptFailed]
  · intro body resp s f hh ho h
    have hok := chargeWithProcessor_a_resp env req pm 402 body hh ho (Or.inr rfl)
    rw [processCharge_completed_eq env st req tid pm hchk hpm] at h
    simp only [hroute] at h
    simp only [ChargeHandlerOutput.completed.injEq] at h
    rw [h.2.2.symm, failoverStep_snd, hok]
    simp [exceptFailed]

/-- C1 witness: the amended theorem evaluated at the environment where
processor A answers HTTP 400, instantiated at that run's completed output
(failover taken) and at the transport-failure classification. -/
theorem C1_failover_condition_amended_witness :
    ((true = true) ↔ exceptFailed (chargeWithProcessor exampleEnv400 ("processor_a")
        exampleChargeReq examplePM).1 = true) ∧
    exceptFailed (processorChargeResult ChargeOutcome.transportError) = true := by
  have h := C1_failover_condition_amended exampleEnv400 emptyOrchState exampleChargeReq
    ("t1") examplePM (9/10) (by decide) rfl rfl
  exact ⟨h.1
      { success := true, transactionId := "t1", processorUsed := "processor_b",
        amount := 29, currency := "USD",
        userMessage := "Payment could not be processed. Please try again.",
        errorCode := "" } 201 true (by decide),
    h.2.2.2.1⟩


/-- Helper: a fresh cache entry under the idempotency key is found by the
idempotency check. -/
theorem checkIdempotency_cons_hit (cache : List (String × ChargeResponse))
    (txs : List Transaction) (k : String) (r : ChargeResponse) :
    checkIdempotency { cache := ("idempotency:" ++ k, r) :: cache, transactions := txs } k
      = some r := by
  simp [checkIdempotency, cacheGet, List.find?]

/-- Helper: against the migrations schema the CreateTransaction INSERT is
always rejected (it names the undefined user_error_message column), so the
table never changes. -/
theorem CreateTransaction_noop (txs : List Transaction) (t : Transaction) :
    CreateTransaction txs t = txs := by
  have h : createTransactionStatementOk = false := by decide
  simp [CreateTransaction, h]

/-- Helper: a successful primary attempt wins without failover. -/
theorem failoverStep_ok (env : OrchestratorEnv) (p s : String)
    (req : ChargeRequest) (pm : PaymentMethod) (tid : String) (r : ChargeResponse)
    (h : (chargeWithProcessor env p req pm).1 = Except.ok r) :
    failoverStep env p s req pm tid = (r, false) := by
  unfold failoverStep
  rw [h]

/-- C2, counterexample: a first charge with key k-1 completes successfully
with 201, yet the transactions table holds zero (not one) success rows for
the key — the CreateTransaction INSERT names the user_error_message
column, which no migration creates, so the insert always errors and is
only logged. -/
theorem C2_success_row_counterexample :
    (processCharge exampleEnvOk emptyOrchState exampleChargeReq ("t1")).1
      = ChargeHandlerOutput.completed exampleRespOk 201 false ∧
    transactionsTableColumns.contains ("user_error_message") = false ∧
    createTransactionStatementOk = false ∧
    (successRowsForKey
        (processCharge exampleEnvOk emptyOrchState exampleChargeReq ("t1")).2.transactions
        ("k-1")).length = 0 := by
  decide

/-- C2 (amended): when a first /orchestrator/charge with some idempotency
key completes successfully (201), a second request with the same key
replays the stored response of the first — identical body, the replay
marker, the store untouched — served from the cache, which the idempotency
lookup consults before the transactions table; but no transaction row is
ever stored for the key (the INSERT names the user_error_message column
that no migration creates), so starting from an empty table the
transactions table holds zero success rows for the key, not exactly one —
the durable uniqueness backstop is ineffective. -/
theorem C2_idempotent_replay_amended
    (env1 env2 : OrchestratorEnv) (st : OrchState) (req1 req2 : ChargeRequest)
    (t1 t2 : String) (resp1 : ChargeResponse) (f : Bool)
    (hkey : req2.idempotencyKey = req1.idempotencyKey)
    (h1 : (processCharge env1 st req1 t1).1 = ChargeHandlerOutput.completed resp1 201 f) :
    processCharge env2 (processCharge env1 st req1 t1).2 req2 t2
      = (ChargeHandlerOutput.replay resp1, (processCharge env1 st req1 t1).2) ∧
    (processCharge env1 st req1 t1).2.transactions = st.transactions ∧
    (st.transactions = [] →
      (successRowsForKey (processCharge env1 st req1 t1).2.transactions
          req1.idempotencyKey).length = 0) ∧
    createTransactionStatementOk = false ∧
    (∀ stX kX r, cacheGet stX.cache ("idempotency:" ++ kX) = some r →
        checkIdempotency stX kX = some r) ∧
    (∀ stX kX, cacheGet stX.cache ("idempotency:" ++ kX) = none →
        checkIdempotency stX kX =
          (GetTransactionByIdempotencyKey stX.transactions kX).map
            (fun transaction =>
              { success := transaction.status = "success"
                transactionId := transaction.id
                processorUsed := transaction.processorUsed
                amount := transaction.amount
                currency := transaction.currency
                userMessage := transaction.userErrorMessage
                errorCode := transaction.errorCode })) := by
  have hlast : (∀ stX kX r, cacheGet stX.cache ("idempotency:" ++ kX) = some r →
      checkIdempotency stX kX = some r) ∧
      (∀ stX kX, cacheGet stX.cache ("idempotency:" ++ kX) = none →
        checkIdempotency stX kX =
          (GetTransactionByIdempotencyKey stX.transactions kX).map
            (fun transaction =>
              { success := transaction.status = "success"
                transactionId := transaction.id
                processorUsed := transaction.processorUsed
                amount := transaction.amount
                currency := transaction.currency
                userMessage := transaction.userErrorMessage
                errorCode := transaction.errorCode })) := by
    constructor
    · intro stX kX r h
      simp [checkIdempotency, h]
    · intro stX kX h
      cases hg : GetTransactionByIdempotencyKey stX.transactions kX with
      | some t => simp [checkIdempotency, h, hg]
      | none => simp [checkIdempotency, h, hg]
  cases hchk : checkIdempotency st req1.idempotencyKey with
  | some cached =>
    rw [processCharge_replay_eq env1 st req1 t1 cached hchk] at h1
    simp at h1
  | none =>
    cases hpm : env1.paymentMethod with
    | none =>
      rw [processCharge_notFound_eq env1 st req1 t1 hchk hpm] at h1
      simp at h1
    | some pm =>
      rw [processCharge_completed_eq env1 st req1 t1 pm hchk hpm] at h1 ⊢
      generalize hstp : failoverStep env1 (resolveRouting env1.routing).primaryProcessor
        (resolveRouting env1.routing).secondaryProcessor req1 pm t1 = stp at h1 ⊢
      simp only [ChargeHandlerOutput.completed.injEq] at h1
      obtain ⟨hresp, hstatus, hf⟩ := h1
      refine ⟨?_, ?_, ?_, by decide, hlast.1, hlast.2⟩
      · rw [processCharge_replay_eq env2 _ req2 t2 resp1 ?_]
        rw [hkey]
        rw [← hresp]
        exact checkIdempotency_cons_hit _ _ _ _
      · exact CreateTransaction_noop st.transactions (mkChargeTransaction req1 t1 stp.1)
      · intro hempty
        rw [CreateTransaction_noop st.transactions (mkChargeTransaction req1 t1 stp.1),
          hempty]
        simp [successRowsForKey]

/-- C2 witness: the amended theorem evaluated at two identical k-1
requests against healthy processors — the second run replays the stored
body and the transactions table stays empty. -/
theorem C2_idempotent_replay_amended_witness :
    processCharge exampleEnvOk
        (processCharge exampleEnvOk emptyOrchState exampleChargeReq ("t1")).2
        exampleChargeReq ("t2")
      = (ChargeHandlerOutput.replay exampleRespOk,
         (processCharge exampleEnvOk emptyOrchState exampleChargeReq ("t1")).2) ∧
    (processCharge exampleEnvOk emptyOrchState exampleChargeReq ("t1")).2.transactions
      = [] := by
  have h := C2_idempotent_replay_amended exampleEnvOk exampleEnvOk emptyOrchState
    exampleChargeReq exampleChargeReq ("t1") ("t2") exampleRespOk false rfl (by decide)
  exact ⟨h.1, h.2.1⟩

/-- C10, counterexample: a success response with an empty error code does
return the default failure text with 201, but nothing is persisted on any
transaction row — the table stays empty because the INSERT names the
user_error_message column that no migration creates. -/
theorem C10_row_not_persisted_counterexample :
    (processCharge exampleEnvOk emptyOrchState exampleChargeReq ("t1")).1
      = ChargeHandlerOutput.completed
          { success := true, transactionId := "t1", processorUsed := "processor_a",
            amount := 29, currency := "USD",
            userMessage := "Payment could not be processed. Please try again.",
            errorCode := "" } 201 false ∧
    (processCharge exampleEnvOk emptyOrchState exampleChargeReq ("t1")).2.transactions
      = [] := by
  decide

/-- C10 (amended): when the processor answers 200 with success true and an
empty error code, the mapped user message is the non-empty default failure
text "Payment could not be processed. Please try again." and the caller
receives it in the 201 ChargeResponse — the empty error code maps to the
default decline message; however nothing is persisted on any transaction
row: the CreateTransaction INSERT names the user_error_message column,
which no migration creates, so the insert always fails and is only
logged. -/
theorem C10_success_user_message_amended
    (env : OrchestratorEnv) (st : OrchState) (req : ChargeRequest)
    (tid : String) (pm : PaymentMethod) (c : ℚ) (body : ProcessorChargeResponse)
    (hchk : checkIdempotency st req.idempotencyKey = none)
    (hpm : env.paymentMethod = some pm)
    (hrt : env.routing = some (RoutingDecision.mk ("processor_a") ("processor_b") c))
    (hh : env.healthyA = true)
    (ho : env.chargeA (processorRequestFor req pm ("processor_a"))
        = ChargeOutcome.httpResponse 200 body)
    (hsucc : body.success = true) (hcode : body.errorCode = "") :
    mapErrorToUserMessage ("") = "Payment could not be processed. Please try again." ∧
    (processCharge env st req tid).1 =
      ChargeHandlerOutput.completed
        { success := true, transactionId := tid, processorUsed := "processor_a",
          amount := req.amount, currency := req.currency,
          userMessage := "Payment could not be processed. Please try again.",
          errorCode := "" } 201 false ∧
    createTransactionStatementOk = false ∧
    (processCharge env st req tid).2.transactions = st.transactions := by
  have hroute : resolveRouting env.routing =
      RoutingDecision.mk ("processor_a") ("processor_b") c := by
    simp [hrt, resolveRouting]
  have hok := chargeWithProcessor_a_resp env req pm 200 body hh ho (Or.inl rfl)
  have hmsg : mapErrorToUserMessage ("")
      = "Payment could not be processed. Please try again." := by
    simp [mapErrorToUserMessage]
  rw [processCharge_completed_eq env st req tid pm hchk hpm]
  simp only [hroute]
  rw [failoverStep_ok env ("processor_a") ("processor_b") req pm tid _ hok]
  refine ⟨hmsg, ?_, by decide, ?_⟩
  · simp [hsucc, hcode, hmsg]
  · exact CreateTransaction_noop st.transactions
      (mkChargeTransaction req tid
        { success := body.success, transactionId := body.transactionId,
          processorUsed := "processor_a", amount := req.amount,
          currency := req.currency,
          userMessage := mapErrorToUserMessage body.errorCode,
          errorCode := body.errorCode })

/-- C10 witness: the amended theorem evaluated at the healthy environment
whose processor A answers 200 success with an empty error code. -/
theorem C10_success_user_message_amended_witness :
    mapErrorToUserMessage ("") = "Payment could not be processed. Please try again." ∧
    (processCharge exampleEnvOk emptyOrchState exampleChargeReq ("t1")).1 =
      ChargeHandlerOutput.completed
        { success := true, transactionId := "t1", processorUsed := "processor_a",
          amount := 29, currency := "USD",
          userMessage := "Payment could not be processed. Please try again.",
          errorCode := "" } 201 false := by
  have h := C10_success_user_message_amended exampleEnvOk emptyOrchState exampleChargeReq
    ("t1") examplePM (9/10) exampleOkBodyA (by decide) rfl rfl rfl rfl rfl rfl
  exact ⟨h.1, h.2.1⟩
